import Mathlib

/-!
Verification of `mapclientplugins/meshgeneratorstep/model/meshplanemodel.py`.

Python's float arithmetic is modelled by exact rational arithmetic (`ℚ`);
Python's `/`, which raises `ZeroDivisionError` on a zero denominator, is
modelled by `pyDiv` in the `Except` monad; Python's `int(...)` truncation
toward zero is `pyInt`.
-/

/-- The Python exceptions relevant to this module, plus the error names the
specification prescribes (`InvalidStateError`, `ArityError`, `ImageLoadError`). -/
inductive PyError where
  | zeroDivisionError
  | indexError
  | arityError
  | invalidStateError
  | imageLoadError
  deriving DecidableEq

/-- Python `/` on rationals: raises `ZeroDivisionError` on a zero denominator. -/
def pyDiv (a b : ℚ) : Except PyError ℚ :=
  if b = 0 then .error .zeroDivisionError else .ok (a / b)

/-- Python `int(...)` on a rational value: truncation toward zero. -/
def pyInt (q : ℚ) : ℤ :=
  if 0 ≤ q then ⌊q⌋ else ⌈q⌉

/-- Model of `MeshPlaneModel.getTimeForFrameIndex`, with the model's `_frame_count`
passed explicitly.  Each Python `/` whose denominator is a runtime value is a
`pyDiv`; `frame_separation / 2` divides by the literal `2` and cannot raise. -/
def getTimeForFrameIndex (frame_count : ℕ) (index frames_per_second : ℚ) :
    Except PyError ℚ := do
  let duration ← pyDiv frame_count frames_per_second
  let frame_separation ← pyDiv 1 frame_count
  let initial_offset := frame_separation / 2
  return (index * frame_separation + initial_offset) * duration

/-- Model of `MeshPlaneModel.getFrameIndexForTime`, with the model's `_frame_count`
passed explicitly. -/
def getFrameIndexForTime (frame_count : ℕ) (time frames_per_second : ℚ) :
    Except PyError ℤ := do
  let duration ← pyDiv frame_count frames_per_second
  let frame_separation ← pyDiv 1 frame_count
  let initial_offset := frame_separation / 2
  let scaled ← pyDiv time duration
  let idx ← pyDiv (scaled - initial_offset) frame_separation
  return pyInt (idx + 1/2)

/-!
### Vector operations

`opencmiss.utils.maths.vectorops` (an external math utility used by
`getPlaneInfo`): componentwise operations on 3-vectors over `ℝ`, with
`normalize v = v / magnitude v` and `magnitude v = sqrt (dot v v)`.
-/

abbrev RVec3 := ℝ × ℝ × ℝ

namespace vectorops

def sub (v w : RVec3) : RVec3 :=
  (v.1 - w.1, v.2.1 - w.2.1, v.2.2 - w.2.2)

def dot (v w : RVec3) : ℝ :=
  v.1 * w.1 + v.2.1 * w.2.1 + v.2.2 * w.2.2

def cross (v w : RVec3) : RVec3 :=
  (v.2.1 * w.2.2 - v.2.2 * w.2.1, v.2.2 * w.1 - v.1 * w.2.2, v.1 * w.2.1 - v.2.1 * w.1)

noncomputable def magnitude (v : RVec3) : ℝ :=
  Real.sqrt (dot v v)

noncomputable def normalize (v : RVec3) : RVec3 :=
  (v.1 / magnitude v, v.2.1 / magnitude v, v.2.2 / magnitude v)

end vectorops

/-- Model of `np.mean(node_locations, axis=0)` for the four plane nodes:
the componentwise arithmetic mean. -/
noncomputable def mean4 (a b c d : RVec3) : RVec3 :=
  ((a.1 + b.1 + c.1 + d.1) / 4, (a.2.1 + b.2.1 + c.2.1 + d.2.1) / 4,
    (a.2.2 + b.2.2 + c.2.2 + d.2.2) / 4)

/-- Model of `MeshPlaneModel.getPlaneInfo` on the four node locations returned by
`getNodeLocations` (the plane region always holds exactly 4 nodes). -/
noncomputable def getPlaneInfo (n0 n1 n2 n3 : RVec3) : RVec3 × RVec3 × RVec3 :=
  let u1 := vectorops.sub n1 n0
  let u2 := vectorops.sub n2 n0
  let plane_centre := mean4 n0 n1 n2 n3
  let c := vectorops.cross u1 u2
  let normal := vectorops.normalize c
  let up := vectorops.normalize u2
  (normal, up, plane_centre)

/-!
### The model state

Node coordinates (Python floats) are modelled over `ℚ`.  The Zinc collaborator
objects are reduced to the observations the module makes of them: which
coordinate field each plane graphics is bound to, the surface material, the
scene visibility flag, and the nesting depth of the fieldmodule
`beginChange`/`endChange` bracket.
-/

abbrev Vec3 := ℚ × ℚ × ℚ

/-- The two coordinate fields a plane graphics can be bound to:
`self._scaledCoordinateField` or `self._fixed_coordinate_field` derived from
the fixed projection. -/
inductive CoordField where
  | scaled
  | fixedProjection
  deriving DecidableEq

/-- The observable state of the Zinc scene of the plane region. -/
structure Scene where
  surfaceCoordinateField : CoordField
  lineCoordinateField : CoordField
  surfaceMaterial : Option (List String)
  visibilityFlag : Bool
  deriving DecidableEq

/-- The observable state of a `MeshPlaneModel` instance. -/
structure ModelState where
  frame_count : ℕ
  scene : Option Scene
  nodes : List Vec3
  displayImagePlane : Bool
  imagePlaneFixed : Bool
  changeDepth : ℕ
  deriving DecidableEq

/-- The external collaborators consulted by `setImageInfo`/`_load_images`:
`os.path.isdir`, `os.path.exists`, `os.listdir`, `imghdr.what` and
`get_image_size.get_image_size` (the latter returns `(-1, -1)` on failure). -/
structure Env where
  isdir : String → Bool
  pathExists : String → Bool
  listdir : String → List String
  imghdrWhat : String → Option String
  get_image_size : String → ℤ × ℤ

/-- Modelled from the spec: the AlignmentAdapter transforms
`_getSceneTransformationFromAdjustedPosition` and
`_getSceneTransformationToAdjustedPosition` are supplied by
`MeshAlignmentModel`/`FixCoordinatesMixin`, whose sources are not under
`src/`; per the spec they form a forward/inverse transform pair between raw
mesh coordinates and scene coordinates.  They are kept as abstract function
parameters `fromAdj`/`toAdj` of every node access operation. -/
def identityTransform : Vec3 → Vec3 := fun v => v

/-- Model of `MeshPlaneModel.getNodeLocations`: `fm.beginChange()`, read every node
through `fromAdj`, `fm.endChange()`.  Returns the list and the resulting
state. -/
def getNodeLocations (fromAdj : Vec3 → Vec3) (s : ModelState) :
    List Vec3 × ModelState :=
  let s1 := { s with changeDepth := s.changeDepth + 1 }
  let node_positions := s1.nodes.map fromAdj
  let s2 := { s1 with changeDepth := s1.changeDepth - 1 }
  (node_positions, s2)

/-- The node-assignment loop of `MeshPlaneModel.setNodeLocations`: iterate
over the region's nodes, looking up `node_positions[index]` for each.  When
the index is out of range Python raises `IndexError` at that point: the
already-assigned prefix keeps its new values and the remaining nodes are
untouched. -/
def assignLoop (toAdj : Vec3 → Vec3) (node_positions : List Vec3) :
    ℕ → List Vec3 → Except (PyError × List Vec3) (List Vec3)
  | _, [] => .ok []
  | index, n :: rest =>
    match node_positions[index]? with
    | none => .error (.indexError, n :: rest)
    | some p =>
      match assignLoop toAdj node_positions (index + 1) rest with
      | .ok rest' => .ok (toAdj p :: rest')
      | .error (e, rest') => .error (e, toAdj p :: rest')

/-- Model of `MeshPlaneModel.setNodeLocations`: `fm.beginChange()`, assign every node
from `node_positions` through `toAdj`, `fm.endChange()`.  If the loop raises,
the exception propagates before `fm.endChange()` is reached, so the error
state keeps the incremented change depth. -/
def setNodeLocations (toAdj : Vec3 → Vec3) (node_positions : List Vec3)
    (s : ModelState) : Except (PyError × ModelState) ModelState :=
  let s1 := { s with changeDepth := s.changeDepth + 1 }
  match assignLoop toAdj node_positions 0 s1.nodes with
  | .ok ns => .ok { s1 with nodes := ns, changeDepth := s1.changeDepth - 1 }
  | .error (e, ns) => .error (e, { s1 with nodes := ns })

/-- Coordinate cast from the `ℚ` state model to the `ℝ` geometry. -/
noncomputable def toRVec3 (v : Vec3) : RVec3 :=
  ((v.1 : ℝ), (v.2.1 : ℝ), (v.2.2 : ℝ))

/-- The geometric part of `getPlaneInfo`, applied to the node-location list
(the plane region built by `createSquare2DFiniteElement` always holds exactly
4 nodes; other shapes do not occur). -/
noncomputable def planeInfoOfList : List Vec3 → Option (RVec3 × RVec3 × RVec3)
  | [a, b, c, d] => some (getPlaneInfo (toRVec3 a) (toRVec3 b) (toRVec3 c) (toRVec3 d))
  | _ => none

/-- Stateful `MeshPlaneModel.getPlaneInfo`: its only interaction with the
model state is the `getNodeLocations` call. -/
noncomputable def getPlaneInfoS (fromAdj : Vec3 → Vec3) (s : ModelState) :
    Option (RVec3 × RVec3 × RVec3) × ModelState :=
  let r := getNodeLocations fromAdj s
  (planeInfoOfList r.1, r.2)

/-- The base geometry built by `_createModel` via
`createSquare2DFiniteElement`: the unit square with x and y in (-0.5, 0.5) each,
`z = 0`. -/
def squareNodeCoordinates : List Vec3 :=
  [(-1/2, -1/2, 0), (1/2, -1/2, 0), (-1/2, 1/2, 0), (1/2, 1/2, 0)]

/-- The scene built by `_createGraphics`: both the `plane-lines` and
`plane-surfaces` graphics are bound to `self._scaledCoordinateField`
unconditionally, the surface material is the default (`silver`), and the
visibility flag is set from the `display-image-plane` setting. -/
def createGraphicsScene (display : Bool) : Scene :=
  { surfaceCoordinateField := .scaled
    lineCoordinateField := .scaled
    surfaceMaterial := none
    visibilityFlag := display }

/-- Model of `MeshPlaneModel._reset`: drop the old region, create a fresh child region
with the unit-square model (`_createModel`) and fresh graphics
(`_createGraphics`).  `_frame_count` is not touched. -/
def reset (s : ModelState) : ModelState :=
  { s with nodes := squareNodeCoordinates
           scene := some (createGraphicsScene s.displayImagePlane) }

/-- Model of `MeshPlaneModel.setImagePlaneFixed`: record the flag in the settings;
when a scene exists (and hence its plane graphics, created together with it),
rebind both graphics to the fixed projection field or the scaled field. -/
def setImagePlaneFixed (state : Bool) (s : ModelState) : ModelState :=
  let s1 := { s with imagePlaneFixed := state }
  match s1.scene with
  | none => s1
  | some sc =>
    if state then
      { s1 with scene := some { sc with surfaceCoordinateField := .fixedProjection
                                        lineCoordinateField := .fixedProjection } }
    else
      { s1 with scene := some { sc with surfaceCoordinateField := .scaled
                                        lineCoordinateField := .scaled } }

/-- Model of `surface.setMaterial(createMaterialUsingImageField(...))` in
`_load_images`: the surface material becomes the image-stack material. -/
def setSurfaceMaterial (images : List String) (s : ModelState) : ModelState :=
  { s with scene := s.scene.map (fun sc => { sc with surfaceMaterial := some images }) }

/-- The per-node rescale of `_load_images`:
`np.multiply` with the tiled column `[width/1000.0, height/1000.0, 1.0]`. -/
def scaleNode (w h : ℤ) (p : Vec3) : Vec3 :=
  (p.1 * ((w : ℚ) / 1000), p.2.1 * ((h : ℚ) / 1000), p.2.2 * 1)

/-- Model of `MeshPlaneModel._load_images`: set `_frame_count = len(images)`; when
positive, probe the first image's size and, unless the probe failed with
`(-1, -1)`, rescale the node locations; finally bind the image stack as the
surface material. -/
def load_images (env : Env) (fromAdj toAdj : Vec3 → Vec3) (images : List String)
    (s : ModelState) : Except (PyError × ModelState) ModelState :=
  let s0 := { s with frame_count := images.length }
  if 0 < s0.frame_count then
    match images with
    | [] => .ok s0
    | img0 :: _ =>
      let wh := env.get_image_size img0
      let rescaled :=
        if wh.1 ≠ -1 ∨ wh.2 ≠ -1 then
          let r := getNodeLocations fromAdj s0
          let new_node_locations := r.1.map (scaleNode wh.1 wh.2)
          setNodeLocations toAdj new_node_locations r.2
        else .ok s0
      match rescaled with
      | .error e => .error e
      | .ok s2 => .ok (setSurfaceMaterial images s2)
  else .ok s0

/-!
### Natural alphanumeric sort

`alphanum_key` models `[tryint(c) for c in re.split('([0-9]+)', s)]`: the
name is split into alternating non-digit/digit runs (with empty non-digit
runs at the boundaries, exactly as `re.split` produces them), digit runs
becoming numbers and the rest staying strings.  A chunk is an element of
`ℕ ⊕ₗ String`, whose lexicographic sum order compares numbers with numbers
numerically and strings with strings lexically; two keys are compared in the
lexicographic list order, which is Python's list comparison.  (Keys always
alternate string/number chunks starting with a string chunk, so comparing two
keys never actually reaches a number/string pair.)
-/

abbrev Chunk := ℕ ⊕ₗ List Char

/-- A numeric chunk (`tryint` succeeded on a digit run). -/
def Chunk.num (n : ℕ) : Chunk := toLex (Sum.inl n)

/-- A string chunk (a non-digit run); Python string comparison is the
lexicographic order on the sequence of code points. -/
def Chunk.str (s : String) : Chunk := toLex (Sum.inr s.data)

/-- Decimal value of a digit character. -/
def digitVal (c : Char) : ℕ := c.toNat - '0'.toNat

/-- One scanning step of the splitter, building the chunk list in reverse
with the current run at the head. -/
def keyStep (acc : List (ℕ ⊕ List Char)) (c : Char) : List (ℕ ⊕ List Char) :=
  if c.isDigit then
    match acc with
    | Sum.inl n :: rest => Sum.inl (10 * n + digitVal c) :: rest
    | _ => Sum.inl (digitVal c) :: acc
  else
    match acc with
    | Sum.inr t :: rest => Sum.inr (t ++ [c]) :: rest
    | _ => Sum.inr [c] :: acc

/-- Model of `alphanum_key`: turn a string into its list of string and number chunks,
e.g. `"z23a"` into `[str "z", num 23, str "a"]`. -/
def alphanum_key (s : String) : List Chunk :=
  let rev := s.data.foldl keyStep [Sum.inr []]
  let rev2 :=
    match rev with
    | Sum.inl _ :: _ => Sum.inr [] :: rev
    | _ => rev
  rev2.reverse.map toLex

/-- The sort key order induced by `alphanum_key`. -/
def nameLe (a b : String) : Prop := alphanum_key a ≤ alphanum_key b

instance : DecidableRel nameLe := fun a b =>
  inferInstanceAs (Decidable (alphanum_key a ≤ alphanum_key b))

instance : IsTotal String nameLe := ⟨fun a b => le_total (alphanum_key a) (alphanum_key b)⟩

instance : IsTrans String nameLe := ⟨fun _ _ _ h1 h2 => le_trans h1 h2⟩

/-- Model of `sorted(..., key=alphanum_key)` in `setImageInfo`. -/
def sortImages (names : List String) : List String :=
  List.insertionSort nameLe names

/-- Model of `MeshPlaneModel.setImageInfo`: a `None` image info is a complete no-op;
otherwise collect the image list from the location (directory listing
naturally sorted and content-sniffed, or a single content-sniffed file),
then `_reset` and `_load_images` — even when the collected list is empty. -/
def setImageInfo (env : Env) (fromAdj toAdj : Vec3 → Vec3)
    (image_info : Option String) (s : ModelState) :
    Except (PyError × ModelState) ModelState :=
  match image_info with
  | none => .ok s
  | some location =>
    let images :=
      if env.isdir location then
        (sortImages (env.listdir location)).filterMap (fun item =>
          let image_candidate := location ++ "/" ++ item
          if (env.imghdrWhat image_candidate).isSome then some image_candidate else none)
      else if env.pathExists location then
        if (env.imghdrWhat location).isSome then [location] else []
      else []
    load_images env fromAdj toAdj images (reset s)

/-!
### Concrete states used by the closed theorems
-/

/-- A freshly reset model (unit-square nodes, fresh scene), as after the
first `_reset`. -/
def baseState : ModelState :=
  { frame_count := 0
    scene := some (createGraphicsScene true)
    nodes := squareNodeCoordinates
    displayImagePlane := true
    imagePlaneFixed := false
    changeDepth := 0 }

/-- A state before any scene exists (as right after `__init__`). -/
def preSceneState : ModelState :=
  { frame_count := 0
    scene := none
    nodes := []
    displayImagePlane := true
    imagePlaneFixed := false
    changeDepth := 0 }

/-- A model that has successfully loaded a 5-frame image set. -/
def loadedState : ModelState :=
  { frame_count := 5
    scene := some { surfaceCoordinateField := .scaled
                    lineCoordinateField := .scaled
                    surfaceMaterial := some ["a.png"]
                    visibilityFlag := true }
    nodes := [(-1, -1/2, 0), (1, -1/2, 0), (-1, 1/2, 0), (1, 1/2, 0)]
    displayImagePlane := true
    imagePlaneFixed := false
    changeDepth := 0 }

/-- An environment in which the given location is neither a directory nor an
existing file: `setImageInfo` collects no image at all. -/
def badEnv : Env :=
  { isdir := fun _ => false
    pathExists := fun _ => false
    listdir := fun _ => []
    imghdrWhat := fun _ => none
    get_image_size := fun _ => (-1, -1) }

/-- An environment whose images all probe as 2000 x 1000 pixels. -/
def wideImageEnv : Env :=
  { isdir := fun _ => false
    pathExists := fun _ => true
    listdir := fun _ => []
    imghdrWhat := fun _ => some "png"
    get_image_size := fun _ => (2000, 1000) }

/-- Concrete unit-square corner nodes over `ℝ`, for instantiating the
`getPlaneInfo` theorem. -/
noncomputable def wNode0 : RVec3 := (-1/2, -1/2, 0)

/-- Second unit-square corner node. -/
noncomputable def wNode1 : RVec3 := (1/2, -1/2, 0)

/-- Third unit-square corner node. -/
noncomputable def wNode2 : RVec3 := (-1/2, 1/2, 0)

/-- Fourth unit-square corner node. -/
noncomputable def wNode3 : RVec3 := (1/2, 1/2, 0)

/-!
### Theorems
-/

theorem pyInt_nat_add_half (i : ℕ) : pyInt ((i : ℚ) + 1/2) = (i : ℤ) := by
  have h0 : (0:ℚ) ≤ (i : ℚ) + 1/2 := by positivity
  rw [pyInt, if_pos h0]
  rw [Int.floor_eq_iff]
  constructor
  · push_cast
    linarith
  · push_cast
    linarith

/-- C1: for every frame count `n > 0`, frames-per-second `f > 0` and frame
index `0 ≤ i < n`, `getFrameIndexForTime (getTimeForFrameIndex i f) f = i`:
the frame-to-time mapping composed with the time-to-frame mapping is the
identity on valid frame indices. -/
theorem getFrameIndexForTime_getTimeForFrameIndex (n : ℕ) (f : ℚ) (i : ℕ)
    (hn : 0 < n) (hf : 0 < f) (hi : i < n) :
    (getTimeForFrameIndex n i f).bind (fun t => getFrameIndexForTime n t f) =
      .ok (i : ℤ) := by
  have hn' : (n : ℚ) ≠ 0 := Nat.cast_ne_zero.mpr (Nat.pos_iff_ne_zero.mp hn)
  have hf' : f ≠ 0 := ne_of_gt hf
  have hd : (n : ℚ) / f ≠ 0 := div_ne_zero hn' hf'
  have hs : (1 : ℚ) / n ≠ 0 := one_div_ne_zero hn'
  simp only [getTimeForFrameIndex, getFrameIndexForTime, pyDiv, if_neg hf', if_neg hn',
    if_neg hd, if_neg hs, bind, Except.bind, pure, Except.pure]
  have harg :
      (((i : ℚ) * (1 / n) + 1 / n / 2) * ((n : ℚ) / f) / ((n : ℚ) / f) - 1 / n / 2) / (1 / n)
        = (i : ℚ) := by
    field_simp
    ring
  rw [harg, pyInt_nat_add_half]

/-- Witness for C1 at `frame_count = 12`, `frames_per_second = 24`, `i = 7`. -/
theorem getFrameIndexForTime_getTimeForFrameIndex_witness :
    (0 < 12 ∧ (0:ℚ) < 24 ∧ 7 < 12) ∧
      (getTimeForFrameIndex 12 ((7:ℕ):ℚ) 24).bind
        (fun t => getFrameIndexForTime 12 t 24) = .ok ((7:ℕ):ℤ) :=
  ⟨⟨by decide, by norm_num, by decide⟩,
    getFrameIndexForTime_getTimeForFrameIndex 12 24 7 (by decide) (by norm_num) (by decide)⟩

/-- C6: with `_frame_count = 0` both `getTimeForFrameIndex` and
`getFrameIndexForTime` raise an unguarded `ZeroDivisionError` (at
`1 / self._frame_count`, or already at `frame_count / frames_per_second` when
`frames_per_second = 0`), not the `InvalidStateError` the specification
prescribes. -/
theorem frameTime_zero_frames_zeroDivision (index time f : ℚ) :
    getTimeForFrameIndex 0 index f = .error .zeroDivisionError ∧
    getFrameIndexForTime 0 time f = .error .zeroDivisionError ∧
    (PyError.zeroDivisionError ≠ PyError.invalidStateError) := by
  refine ⟨?_, ?_, by decide⟩ <;>
    · by_cases hf : f = 0 <;>
        simp [getTimeForFrameIndex, getFrameIndexForTime, pyDiv, hf, bind, Except.bind]

theorem dot_cross_left (u v : RVec3) : vectorops.dot (vectorops.cross u v) u = 0 := by
  simp only [vectorops.dot, vectorops.cross]
  ring

theorem dot_cross_right (u v : RVec3) : vectorops.dot (vectorops.cross u v) v = 0 := by
  simp only [vectorops.dot, vectorops.cross]
  ring

theorem dot_self_pos (v : RVec3) (h : v ≠ (0, 0, 0)) : 0 < vectorops.dot v v := by
  have hsq : vectorops.dot v v = v.1 ^ 2 + v.2.1 ^ 2 + v.2.2 ^ 2 := by
    simp only [vectorops.dot]
    ring
  refine lt_of_le_of_ne ?_ ?_
  · rw [hsq]
    positivity
  · intro h0
    have h0' : v.1 ^ 2 + v.2.1 ^ 2 + v.2.2 ^ 2 = 0 := by rw [← hsq, ← h0]
    have h1 : v.1 = 0 := by nlinarith [sq_nonneg v.1, sq_nonneg v.2.1, sq_nonneg v.2.2]
    have h2 : v.2.1 = 0 := by nlinarith [sq_nonneg v.1, sq_nonneg v.2.1, sq_nonneg v.2.2]
    have h3 : v.2.2 = 0 := by nlinarith [sq_nonneg v.1, sq_nonneg v.2.1, sq_nonneg v.2.2]
    apply h
    have hv : v = (v.1, v.2.1, v.2.2) := rfl
    rw [hv, h1, h2, h3]

theorem magnitude_normalize (v : RVec3) (h : v ≠ (0, 0, 0)) :
    vectorops.magnitude (vectorops.normalize v) = 1 := by
  have hd := dot_self_pos v h
  have hmsq : vectorops.magnitude v ^ 2 = vectorops.dot v v := Real.sq_sqrt hd.le
  have hdot : vectorops.dot (vectorops.normalize v) (vectorops.normalize v) =
      vectorops.dot v v / vectorops.magnitude v ^ 2 := by
    simp only [vectorops.normalize, vectorops.dot]
    ring
  rw [vectorops.magnitude, hdot, hmsq, div_self (ne_of_gt hd), Real.sqrt_one]

theorem dot_normalize_of_dot_eq_zero (v w : RVec3) (h : vectorops.dot v w = 0) :
    vectorops.dot (vectorops.normalize v) w = 0 := by
  have hdot : vectorops.dot (vectorops.normalize v) w =
      vectorops.dot v w / vectorops.magnitude v := by
    simp only [vectorops.normalize, vectorops.dot]
    ring
  rw [hdot, h, zero_div]

/-- C2: for non-degenerate nodes (non-collinear, i.e. the cross product of
the two edge vectors is nonzero), `getPlaneInfo` returns the normalized cross
product as `normal` — a unit vector orthogonal to both edge vectors —
`normalize(nodes[2]-nodes[0])` as `up`, and the componentwise arithmetic mean
of the four nodes as `centre`; and the stateful call leaves the model state
exactly as it was. -/
theorem getPlaneInfo_spec (n0 n1 n2 n3 : RVec3)
    (h : vectorops.cross (vectorops.sub n1 n0) (vectorops.sub n2 n0) ≠ (0, 0, 0)) :
    (getPlaneInfo n0 n1 n2 n3).1 =
      vectorops.normalize (vectorops.cross (vectorops.sub n1 n0) (vectorops.sub n2 n0)) ∧
    vectorops.magnitude (getPlaneInfo n0 n1 n2 n3).1 = 1 ∧
    vectorops.dot (getPlaneInfo n0 n1 n2 n3).1 (vectorops.sub n1 n0) = 0 ∧
    vectorops.dot (getPlaneInfo n0 n1 n2 n3).1 (vectorops.sub n2 n0) = 0 ∧
    (getPlaneInfo n0 n1 n2 n3).2.1 = vectorops.normalize (vectorops.sub n2 n0) ∧
    (getPlaneInfo n0 n1 n2 n3).2.2 = mean4 n0 n1 n2 n3 ∧
    ∀ (fromAdj : Vec3 → Vec3) (s : ModelState), (getPlaneInfoS fromAdj s).2 = s := by
  refine ⟨rfl, ?_, ?_, ?_, rfl, rfl, ?_⟩
  · exact magnitude_normalize _ h
  · exact dot_normalize_of_dot_eq_zero _ _ (dot_cross_left _ _)
  · exact dot_normalize_of_dot_eq_zero _ _ (dot_cross_right _ _)
  · intro fromAdj s
    simp [getPlaneInfoS, getNodeLocations]

/-- Witness for C2 at the unit-square nodes. -/
theorem getPlaneInfo_spec_witness :
    (vectorops.cross (vectorops.sub wNode1 wNode0) (vectorops.sub wNode2 wNode0) ≠ (0, 0, 0)) ∧
    ((getPlaneInfo wNode0 wNode1 wNode2 wNode3).1 =
      vectorops.normalize
        (vectorops.cross (vectorops.sub wNode1 wNode0) (vectorops.sub wNode2 wNode0)) ∧
    vectorops.magnitude (getPlaneInfo wNode0 wNode1 wNode2 wNode3).1 = 1 ∧
    vectorops.dot (getPlaneInfo wNode0 wNode1 wNode2 wNode3).1 (vectorops.sub wNode1 wNode0) = 0 ∧
    vectorops.dot (getPlaneInfo wNode0 wNode1 wNode2 wNode3).1 (vectorops.sub wNode2 wNode0) = 0 ∧
    (getPlaneInfo wNode0 wNode1 wNode2 wNode3).2.1 =
      vectorops.normalize (vectorops.sub wNode2 wNode0) ∧
    (getPlaneInfo wNode0 wNode1 wNode2 wNode3).2.2 = mean4 wNode0 wNode1 wNode2 wNode3 ∧
    ∀ (fromAdj : Vec3 → Vec3) (s : ModelState), (getPlaneInfoS fromAdj s).2 = s) := by
  have hne : vectorops.cross (vectorops.sub wNode1 wNode0) (vectorops.sub wNode2 wNode0) ≠
      (0, 0, 0) := by
    norm_num [wNode0, wNode1, wNode2, vectorops.sub, vectorops.cross, Prod.ext_iff]
  exact ⟨hne, getPlaneInfo_spec wNode0 wNode1 wNode2 wNode3 hne⟩


theorem assignLoop_of_length (toAdj : Vec3 → Vec3) (ps : List Vec3) :
    ∀ (idx : ℕ) (ns : List Vec3), ps.length = idx + ns.length →
      assignLoop toAdj ps idx ns = .ok ((ps.drop idx).map toAdj) := by
  intro idx ns
  induction ns generalizing idx with
  | nil =>
    intro h
    have h' : ps.length ≤ idx := by
      simp only [List.length_nil] at h
      omega
    simp [assignLoop, List.drop_eq_nil_of_le h']
  | cons n rest ih =>
    intro h
    have hidx : idx < ps.length := by
      simp only [List.length_cons] at h
      omega
    have hget : ps[idx]? = some ps[idx] := List.getElem?_eq_getElem hidx
    simp only [assignLoop, hget]
    rw [ih (idx + 1) (by simp only [List.length_cons] at h ⊢; omega)]
    rw [List.drop_eq_getElem_cons hidx, List.map_cons]

theorem setNodeLocations_full_length (toAdj : Vec3 → Vec3) (ps : List Vec3)
    (s : ModelState) (h : ps.length = s.nodes.length) :
    setNodeLocations toAdj ps s = .ok { s with nodes := ps.map toAdj } := by
  have hloop := assignLoop_of_length toAdj ps 0 s.nodes (by simpa using h)
  simp only [setNodeLocations, hloop, List.drop_zero]
  simp

theorem load_images_eq (env : Env) (fromAdj toAdj : Vec3 → Vec3)
    (img0 : String) (rest : List String) (s : ModelState) (w hgt : ℤ)
    (hwh : env.get_image_size img0 = (w, hgt)) (hne : w ≠ -1 ∨ hgt ≠ -1) :
    load_images env fromAdj toAdj (img0 :: rest) s =
      .ok (setSurfaceMaterial (img0 :: rest)
        { s with frame_count := (img0 :: rest).length,
                 nodes := ((s.nodes.map fromAdj).map (scaleNode w hgt)).map toAdj }) := by
  simp only [load_images, hwh, getNodeLocations]
  rw [if_pos (by simp : 0 < ({ s with frame_count := (img0 :: rest).length } : ModelState).frame_count)]
  rw [if_pos hne]
  rw [setNodeLocations_full_length _ _ _ (by simp)]
  simp

theorem load_images_rescales (env : Env) (fromAdj toAdj : Vec3 → Vec3)
    (hinv : ∀ v, fromAdj (toAdj v) = v)
    (img0 : String) (rest : List String) (s : ModelState) (w hgt : ℤ)
    (hwh : env.get_image_size img0 = (w, hgt)) (hne : w ≠ -1 ∨ hgt ≠ -1) :
    ∃ s', load_images env fromAdj toAdj (img0 :: rest) s = .ok s' ∧
      s'.frame_count = (img0 :: rest).length ∧
      (getNodeLocations fromAdj s').1 =
        (getNodeLocations fromAdj s).1.map
          (fun p => (p.1 * ((w : ℚ) / 1000), p.2.1 * ((hgt : ℚ) / 1000), p.2.2)) := by
  refine ⟨_, load_images_eq env fromAdj toAdj img0 rest s w hgt hwh hne, ?_, ?_⟩
  · simp [setSurfaceMaterial]
  · simp only [setSurfaceMaterial, getNodeLocations]
    simp only [List.map_map]
    refine List.map_congr_left (fun a _ => ?_)
    simp [Function.comp, hinv, scaleNode]

theorem load_images_rescales_witness :
    (wideImageEnv.get_image_size "img1.png" = (2000, 1000) ∧
      ((2000 : ℤ) ≠ -1 ∨ (1000 : ℤ) ≠ -1) ∧
      (∀ v : Vec3, identityTransform (identityTransform v) = v)) ∧
    (∃ s', load_images wideImageEnv identityTransform identityTransform ["img1.png"] baseState
        = .ok s' ∧
      s'.frame_count = (["img1.png"] : List String).length ∧
      (getNodeLocations identityTransform s').1 =
        (getNodeLocations identityTransform baseState).1.map
          (fun p => (p.1 * (((2000 : ℤ) : ℚ) / 1000), p.2.1 * (((1000 : ℤ) : ℚ) / 1000), p.2.2))) ∧
    (getNodeLocations identityTransform baseState).1.map
        (fun p => (p.1 * (((2000 : ℤ) : ℚ) / 1000), p.2.1 * (((1000 : ℤ) : ℚ) / 1000), p.2.2))
      = [(-1, -1/2, 0), (1, -1/2, 0), (-1, 1/2, 0), (1, 1/2, 0)] :=
  ⟨⟨rfl, by decide, fun v => rfl⟩,
    load_images_rescales wideImageEnv identityTransform identityTransform (fun v => rfl)
      "img1.png" [] baseState 2000 1000 rfl (by decide),
    by norm_num [getNodeLocations, baseState, squareNodeCoordinates, identityTransform]⟩

/-- C4: `setImageInfo` with a location that is neither a directory nor a
recognized image file raises no error at all — in particular no
`ImageLoadError` — and it has already torn down and rebuilt the region and
scene and zeroed the frame count, so the previous state is lost rather than
left unchanged. -/
theorem setImageInfo_invalid_path_no_error_resets :
    setImageInfo badEnv identityTransform identityTransform (some "no_such_path.txt")
        loadedState =
      .ok { loadedState with frame_count := 0, nodes := squareNodeCoordinates,
                             scene := some (createGraphicsScene true) } ∧
    ({ loadedState with frame_count := 0, nodes := squareNodeCoordinates,
                        scene := some (createGraphicsScene true) } : ModelState) ≠ loadedState :=
  ⟨rfl, by decide⟩

/-- C5: `setNodeLocations` with 3 positions on the 4-node plane raises
`IndexError` (not `ArityError`) only after already assigning the first 3
nodes, and a 5-position call succeeds silently, assigning the 4 nodes and
ignoring the extra entry — there is no arity check. -/
theorem setNodeLocations_wrong_arity_mutates :
    setNodeLocations identityTransform [(9, 9, 9), (8, 8, 8), (7, 7, 7)] baseState =
      .error (.indexError,
        { baseState with nodes := [(9, 9, 9), (8, 8, 8), (7, 7, 7), (1/2, 1/2, 0)],
                         changeDepth := 1 }) ∧
    ({ baseState with nodes := [(9, 9, 9), (8, 8, 8), (7, 7, 7), (1/2, 1/2, 0)],
                      changeDepth := 1 } : ModelState).nodes ≠ baseState.nodes ∧
    PyError.indexError ≠ PyError.arityError ∧
    setNodeLocations identityTransform [(9, 9, 9), (8, 8, 8), (7, 7, 7), (6, 6, 6), (5, 5, 5)]
        baseState =
      .ok { baseState with nodes := [(9, 9, 9), (8, 8, 8), (7, 7, 7), (6, 6, 6)] } :=
  ⟨rfl, by norm_num [baseState, squareNodeCoordinates], by decide, rfl⟩

/-- C7: `getNodeLocations` always closes the `beginChange` bracket, and so
does `setNodeLocations` on its success path; but on the `IndexError` path of
`setNodeLocations` the exception propagates before `fm.endChange()`, leaving
the bracket open (change depth still incremented). -/
theorem changeBracket_left_open_on_error :
    (∀ (fromAdj : Vec3 → Vec3) (s : ModelState), (getNodeLocations fromAdj s).2 = s) ∧
    (∃ s', setNodeLocations identityTransform [(1, 1, 1), (2, 2, 2), (3, 3, 3)] baseState =
        .error (.indexError, s') ∧ s'.changeDepth = baseState.changeDepth + 1) ∧
    (∃ s'', setNodeLocations identityTransform [(1, 1, 1), (2, 2, 2), (3, 3, 3), (4, 4, 4)]
        baseState = .ok s'' ∧ s''.changeDepth = baseState.changeDepth) :=
  ⟨fun fromAdj s => by simp [getNodeLocations],
    ⟨_, rfl, rfl⟩, ⟨_, rfl, rfl⟩⟩

/-- C8 counterexample: with no scene, `setImagePlaneFixed true` records the
flag; but when the scene is then created (`_reset`/`_createGraphics`), both
plane graphics are bound to the scaled coordinate field, not the fixed
projection field the recorded mode calls for. -/
theorem setImagePlaneFixed_not_applied_on_scene_creation :
    (setImagePlaneFixed true preSceneState).imagePlaneFixed = true ∧
    (setImagePlaneFixed true preSceneState).scene = none ∧
    (reset (setImagePlaneFixed true preSceneState)).scene.map Scene.surfaceCoordinateField =
      some CoordField.scaled ∧
    (reset (setImagePlaneFixed true preSceneState)).scene.map Scene.lineCoordinateField =
      some CoordField.scaled ∧
    CoordField.scaled ≠ CoordField.fixedProjection := by
  refine ⟨rfl, rfl, rfl, rfl, by decide⟩

/-- C8 amended: with no scene, `setImagePlaneFixed b` only records `b`; when
the scene is later created its graphics are bound to the scaled field
regardless of the recorded mode, and the recorded mode only takes effect on a
further `setImagePlaneFixed` call made while the scene exists. -/
theorem setImagePlaneFixed_no_scene (b : Bool) (s : ModelState) (h : s.scene = none) :
    setImagePlaneFixed b s = { s with imagePlaneFixed := b } ∧
    (reset (setImagePlaneFixed b s)).scene.map Scene.surfaceCoordinateField =
      some CoordField.scaled ∧
    (reset (setImagePlaneFixed b s)).scene.map Scene.lineCoordinateField =
      some CoordField.scaled ∧
    (setImagePlaneFixed b (reset (setImagePlaneFixed b s))).scene.map
        Scene.surfaceCoordinateField =
      some (if b then CoordField.fixedProjection else CoordField.scaled) ∧
    (setImagePlaneFixed b (reset (setImagePlaneFixed b s))).scene.map
        Scene.lineCoordinateField =
      some (if b then CoordField.fixedProjection else CoordField.scaled) := by
  have h1 : setImagePlaneFixed b s = { s with imagePlaneFixed := b } := by
    unfold setImagePlaneFixed
    simp [h]
  refine ⟨h1, ?_, ?_, ?_, ?_⟩ <;>
    · rw [h1]
      cases b <;> simp [reset, createGraphicsScene, setImagePlaneFixed]

/-- Witness for C8's amended statement at `b = true` from the pre-scene
state. -/
theorem setImagePlaneFixed_no_scene_witness :
    preSceneState.scene = none ∧
    (setImagePlaneFixed true preSceneState =
        { preSceneState with imagePlaneFixed := true } ∧
    (reset (setImagePlaneFixed true preSceneState)).scene.map Scene.surfaceCoordinateField =
      some CoordField.scaled ∧
    (reset (setImagePlaneFixed true preSceneState)).scene.map Scene.lineCoordinateField =
      some CoordField.scaled ∧
    (setImagePlaneFixed true (reset (setImagePlaneFixed true preSceneState))).scene.map
        Scene.surfaceCoordinateField =
      some (if true then CoordField.fixedProjection else CoordField.scaled) ∧
    (setImagePlaneFixed true (reset (setImagePlaneFixed true preSceneState))).scene.map
        Scene.lineCoordinateField =
      some (if true then CoordField.fixedProjection else CoordField.scaled)) :=
  ⟨rfl, setImagePlaneFixed_no_scene true preSceneState rfl⟩

/-- C9: `alphanum_key` splits a name into alternating non-digit/digit runs
(digit runs numeric, the rest strings); sorting by it orders the example list
naturally, and for every list of names the result is sorted under the key
order and is a permutation of the input. -/
theorem sortImages_natural_sort :
    alphanum_key "img2.png" = [Chunk.str "img", Chunk.num 2, Chunk.str ".png"] ∧
    sortImages ["img10.png", "img2.png", "img1.png"] =
      ["img1.png", "img2.png", "img10.png"] ∧
    ∀ names : List String, (sortImages names).Sorted nameLe ∧ (sortImages names).Perm names :=
  ⟨by decide, by decide, fun names =>
    ⟨List.sorted_insertionSort nameLe names, List.perm_insertionSort nameLe names⟩⟩

/-- C10: `setImageInfo` with `None` image info returns immediately: no error,
no reset, no load, and the returned state is the input state — frame count,
scene, nodes and settings all unchanged. -/
theorem setImageInfo_none_noop (env : Env) (fromAdj toAdj : Vec3 → Vec3) (s : ModelState) :
    setImageInfo env fromAdj toAdj none s = .ok s :=
  rfl
